import Mathlib

/-!
Verification of the Gogs webhook integration
(`zerver/webhooks/gogs/view.py`).

The payload is a JSON-like tree handled through the WildValue field
extractor; extraction of a missing or mistyped field fails with a
SchemaViolation, and indexing the first element of an empty list fails
with an IndexError.  Message bodies produced by the shared template
functions of `zerver/lib/webhooks/git.py` are represented abstractly by
the arguments handed to those functions; the rendered strings always
contain literal template text and are therefore never empty.
-/

/-- Failure kinds that can escape a handler: a `schemaViolation` models the
ValidationError raised by the WildValue field extractor, an `indexError`
models the Python IndexError raised by out-of-bounds list indexing. -/
inductive Err where
  | schemaViolation
  | indexError
deriving DecidableEq

/-- A JSON-like value, the shape of one webhook payload. -/
inductive JsonValue where
  | null
  | bool (b : Bool)
  | num (n : Int)
  | str (s : String)
  | arr (xs : List JsonValue)
  | obj (fields : List (String × JsonValue))

/-- Modelled from the spec: Python truthiness of the JSON value wrapped in a
WildValue, as used by `if wildvalue:` tests (null, False, 0, empty string,
empty array and empty object are falsy). -/
def truthy : JsonValue → Bool
  | .null => false
  | .bool b => b
  | .num n => n != 0
  | .str s => s != ""
  | .arr xs => !xs.isEmpty
  | .obj fs => !fs.isEmpty

/-- Modelled from the spec: `WildValue.__getitem__` of the field extractor
(section 4.1 of the spec); indexing a non-object or a missing key fails with
a SchemaViolation. -/
def getKey (j : JsonValue) (k : String) : Except Err JsonValue :=
  match j with
  | .obj fs =>
    match fs.lookup k with
    | some v => .ok v
    | none => .error .schemaViolation
  | _ => .error .schemaViolation

/-- Modelled from the spec: `tame(check_string)` of the field extractor. -/
def tameString : JsonValue → Except Err String
  | .str s => .ok s
  | _ => .error .schemaViolation

/-- Modelled from the spec: `tame(check_int)` of the field extractor. -/
def tameInt : JsonValue → Except Err Int
  | .num n => .ok n
  | _ => .error .schemaViolation

/-- Modelled from the spec: `tame(check_bool)` of the field extractor. -/
def tameBool : JsonValue → Except Err Bool
  | .bool b => .ok b
  | _ => .error .schemaViolation

/-- Modelled from the spec: iterating a WildValue (`for commit in commits`)
requires the underlying value to be a list. -/
def tameList : JsonValue → Except Err (List JsonValue)
  | .arr xs => .ok xs
  | _ => .error .schemaViolation

/-- Whitespace characters recognised by the Python `str.split()` used on
commit author names. -/
def isPyWhitespace (c : Char) : Bool :=
  c == ' ' || c == '\t' || c == '\n' || c == '\x0b' || c == '\x0c' || c == '\r'

/-- Helper for `pySplitWs`: accumulates the current word (reversed) while
scanning the character list. -/
def pySplitWsAux : List Char → List Char → List String
  | cur, [] => if cur.isEmpty then [] else [String.mk cur.reverse]
  | cur, c :: cs =>
    if isPyWhitespace c then
      if cur.isEmpty then pySplitWsAux [] cs
      else String.mk cur.reverse :: pySplitWsAux [] cs
    else pySplitWsAux (c :: cur) cs

/-- Python `str.split()` with no separator: split on runs of whitespace and
drop empty pieces, so the empty and all-whitespace strings split to `[]`. -/
def pySplitWs (s : String) : List String :=
  pySplitWsAux [] s.toList

/-- Helper for `splitComma`: Python `str.split(",")`, which keeps empty
pieces. -/
def splitCommaAux : List Char → List Char → List String
  | cur, [] => [String.mk cur.reverse]
  | cur, c :: cs =>
    if c == ',' then String.mk cur.reverse :: splitCommaAux [] cs
    else splitCommaAux (c :: cur) cs

/-- Python `str.split(",")` on a branches parameter. -/
def splitComma (s : String) : List String :=
  splitCommaAux [] s.toList

/-- Helper for `pyReplace`: if `pat` is a leading segment of the second list,
return the remainder after it. -/
def dropPat : List Char → List Char → Option (List Char)
  | [], rest => some rest
  | _ :: _, [] => none
  | p :: ps, c :: cs => if p == c then dropPat ps cs else none

/-- Helper for `pyReplace`: fuel-indexed scan replacing each occurrence of
`pat` by `rep`, continuing after the replaced text, as Python `str.replace`
does. -/
def pyReplaceAux (pat rep : List Char) : Nat → List Char → List Char
  | _, [] => []
  | 0, s => s
  | fuel + 1, c :: cs =>
    match dropPat pat (c :: cs) with
    | some rest => rep ++ pyReplaceAux pat rep fuel rest
    | none => c :: pyReplaceAux pat rep fuel cs

/-- Python `str.replace(pat, rep)`: replaces every occurrence of `pat`
anywhere in the string, scanning left to right. -/
def pyReplace (s pat rep : String) : String :=
  if pat.toList.isEmpty then s
  else String.mk (pyReplaceAux pat.toList rep.toList s.toList.length s.toList)

/-- Modelled from the spec: `is_branch_name_notifiable` lives in
`zerver/lib/webhooks/git.py`, outside the source file under verification.
The spec describes it as the caller-supplied branch allow-list predicate: a
missing allow-list passes every branch, and the allow-list is a
comma-separated list of branch names. -/
def is_branch_name_notifiable (branch : String) (branches : Option String) : Bool :=
  match branches with
  | none => true
  | some bs => (splitComma bs).contains branch

/-- Modelled from the spec: `TOPIC_WITH_BRANCH_TEMPLATE` of
`zerver/lib/webhooks/git.py`, the topic built from repo and branch. -/
def TOPIC_WITH_BRANCH_TEMPLATE (repo branch : String) : String :=
  repo ++ " / " ++ branch

/-- Modelled from the spec: `TOPIC_WITH_PR_OR_ISSUE_INFO_TEMPLATE` of
`zerver/lib/webhooks/git.py`, the topic built from repo, a type tag, a
numeric id and a title. -/
def TOPIC_WITH_PR_OR_ISSUE_INFO_TEMPLATE (repo type : String) (id : Int)
    (title : String) : String :=
  repo ++ " / " ++ type ++ " #" ++ toString id ++ " " ++ title

/-- Modelled from the spec: `TOPIC_WITH_RELEASE_TEMPLATE` of
`zerver/lib/webhooks/git.py`, the topic built from repo, tag and title. -/
def TOPIC_WITH_RELEASE_TEMPLATE (repo tag title : String) : String :=
  repo ++ " / " ++ tag ++ " " ++ title

/-- The common-format commit record built by
`_transform_commits_list_to_common_format` (the CommitSummary of the
spec). -/
structure CommitSummary where
  name : String
  sha : String
  url : String
  message : String
deriving DecidableEq

/-- Arguments of `get_push_commits_event_message`. -/
structure PushCommitsMessage where
  user_name : String
  compare_url : String
  branch_name : String
  commits_data : List CommitSummary
deriving DecidableEq

/-- Arguments of `get_create_branch_event_message`. -/
structure CreateBranchMessage where
  user_name : String
  url : String
  branch_name : String
deriving DecidableEq

/-- Arguments of `get_pull_request_event_message`. -/
structure PullRequestEventMessage where
  user_name : String
  action : String
  url : String
  number : Int
  target_branch : Option String
  base_branch : Option String
  message : Option String
  type : String
  title : Option String
  assignee_updated : Option String
deriving DecidableEq

/-- Arguments of `get_issue_event_message`. -/
structure IssueEventMessage where
  user_name : String
  action : String
  url : String
  number : Int
  message : String
  assignee : Option String
  title : Option String
  assignee_updated : Option String
deriving DecidableEq

/-- Arguments of `get_release_event_message`. -/
structure ReleaseEventMessage where
  user_name : String
  action : String
  tagname : String
  release_name : String
  url : String
deriving DecidableEq

/-- A rendered message body.  Modelled from the spec: the shared template
functions of `zerver/lib/webhooks/git.py` are outside the source file under
verification, so a body is represented by the template arguments it was
rendered from; every template interleaves literal text, so a rendered body
string is never empty. -/
inductive Body where
  | pushCommits (m : PushCommitsMessage)
  | newBranch (m : CreateBranchMessage)
  | pullRequest (m : PullRequestEventMessage)
  | issueEvent (m : IssueEventMessage)
  | release (m : ReleaseEventMessage)
deriving DecidableEq

/-- Modelled from the spec: `get_push_commits_event_message` of
`zerver/lib/webhooks/git.py`. -/
def get_push_commits_event_message (user_name compare_url branch_name : String)
    (commits_data : List CommitSummary) : Body :=
  Body.pushCommits ⟨user_name, compare_url, branch_name, commits_data⟩

/-- Modelled from the spec: `get_create_branch_event_message` of
`zerver/lib/webhooks/git.py`. -/
def get_create_branch_event_message (user_name url branch_name : String) : Body :=
  Body.newBranch ⟨user_name, url, branch_name⟩

/-- Modelled from the spec: `get_pull_request_event_message` of
`zerver/lib/webhooks/git.py`; the optional title is part of the rendered
body exactly when it is passed. -/
def get_pull_request_event_message (user_name action url : String) (number : Int)
    (target_branch base_branch message : Option String) (type : String)
    (title assignee_updated : Option String) : Body :=
  Body.pullRequest
    ⟨user_name, action, url, number, target_branch, base_branch, message, type,
      title, assignee_updated⟩

/-- Modelled from the spec: `get_issue_event_message` of
`zerver/lib/webhooks/git.py`; the optional title is part of the rendered
body exactly when it is passed. -/
def get_issue_event_message (user_name action url : String) (number : Int)
    (message : String) (assignee title assignee_updated : Option String) : Body :=
  Body.issueEvent
    ⟨user_name, action, url, number, message, assignee, title, assignee_updated⟩

/-- Modelled from the spec: `get_release_event_message` of
`zerver/lib/webhooks/git.py`. -/
def get_release_event_message (user_name action tagname release_name url : String) :
    Body :=
  Body.release ⟨user_name, action, tagname, release_name, url⟩

/-- The dispatch context of `view.py` (class `Helper`); the injected
`format_pull_request_event` strategy is always the formatter of this module,
as wired by `api_gogs_webhook`, so it is not carried in the record. -/
structure Helper where
  payload : JsonValue
  branches : Option String
  user_specified_topic : Option String
  repo : String
  event_type : String

/-- Source `get_issue_url`. -/
def get_issue_url (repo_url : String) (issue_nr : Int) : String :=
  repo_url ++ "/issues/" ++ toString issue_nr

/-- Source `_transform_commits_list_to_common_format`, element step: one
commit of the list comprehension.  The author name falls back from the
commit author username (Python `or`, so the empty string falls through) to
the first whitespace-separated token of the commit author full name, where
an empty token list raises an IndexError. -/
def transformCommit (commit : JsonValue) : Except Err CommitSummary := do
  let username ← tameString (← getKey (← getKey commit "author") "username")
  let name ←
    if username == "" then do
      let full ← tameString (← getKey (← getKey commit "author") "name")
      match pySplitWs full with
      | [] => Except.error Err.indexError
      | t :: _ => pure t
    else pure username
  let sha ← tameString (← getKey commit "id")
  let url ← tameString (← getKey commit "url")
  let message ← tameString (← getKey commit "message")
  pure ⟨name, sha, url, message⟩

/-- Source `_transform_commits_list_to_common_format`. -/
def _transform_commits_list_to_common_format (commits : JsonValue) :
    Except Err (List CommitSummary) := do
  let cs ← tameList commits
  cs.mapM transformCommit

/-- Source `format_push_event`. -/
def format_push_event (payload : JsonValue) : Except Err Body := do
  let user_name ← tameString (← getKey (← getKey payload "sender") "username")
  let compare_url ← tameString (← getKey payload "compare_url")
  let branch_name := pyReplace (← tameString (← getKey payload "ref")) "refs/heads/" ""
  let commits_data ← _transform_commits_list_to_common_format (← getKey payload "commits")
  pure (get_push_commits_event_message user_name compare_url branch_name commits_data)

/-- Source `format_new_branch_event`. -/
def format_new_branch_event (payload : JsonValue) : Except Err Body := do
  let branch_name ← tameString (← getKey payload "ref")
  let rhtml ← tameString (← getKey (← getKey payload "repository") "html_url")
  let url := rhtml ++ "/src/" ++ branch_name
  let user_name ← tameString (← getKey (← getKey payload "sender") "username")
  pure (get_create_branch_event_message user_name url branch_name)

/-- Source `format_pull_request_event`.  The assignee note condition mirrors
the Python short-circuit `payload["action"] and payload["pull_request"]["assignee"]`:
the assignee field is only read when the action value is truthy. -/
def format_pull_request_event (payload : JsonValue) (include_title : Bool) :
    Except Err Body := do
  let merged ← tameBool (← getKey (← getKey payload "pull_request") "merged")
  let ua ←
    if merged then do
      let u ← tameString
        (← getKey (← getKey (← getKey payload "pull_request") "merged_by") "username")
      pure (u, "merged")
    else do
      let u ← tameString
        (← getKey (← getKey (← getKey payload "pull_request") "user") "username")
      let a ← tameString (← getKey payload "action")
      pure (u, a)
  let url ← tameString (← getKey (← getKey payload "pull_request") "html_url")
  let number ← tameInt (← getKey (← getKey payload "pull_request") "number")
  let tb ←
    if ua.2 != "edited" then do
      let t ← tameString (← getKey (← getKey payload "pull_request") "head_branch")
      let b ← tameString (← getKey (← getKey payload "pull_request") "base_branch")
      pure (some t, some b)
    else pure ((none : Option String), (none : Option String))
  let title ←
    if include_title then do
      let t ← tameString (← getKey (← getKey payload "pull_request") "title")
      pure (some t)
    else pure (none : Option String)
  let aj ← getKey payload "action"
  let stringified_assignee ←
    if truthy aj then do
      let asj ← getKey (← getKey payload "pull_request") "assignee"
      if truthy asj then do
        let l ← tameString (← getKey asj "login")
        pure (some l)
      else pure (none : Option String)
    else pure (none : Option String)
  pure (get_pull_request_event_message ua.1 ua.2 url number tb.1 tb.2 none "PR"
    title stringified_assignee)

/-- Source `format_issues_event`. -/
def format_issues_event (payload : JsonValue) (include_title : Bool) :
    Except Err Body := do
  let issue_nr ← tameInt (← getKey (← getKey payload "issue") "number")
  let assignee ← getKey (← getKey payload "issue") "assignee"
  let stringified_assignee ←
    if truthy assignee then do
      let l ← tameString (← getKey assignee "login")
      pure (some l)
    else pure (none : Option String)
  let action ← tameString (← getKey payload "action")
  let user_name ← tameString (← getKey (← getKey payload "sender") "login")
  let action2 ← tameString (← getKey payload "action")
  let rhtml ← tameString (← getKey (← getKey payload "repository") "html_url")
  let msg ← tameString (← getKey (← getKey payload "issue") "body")
  let title ←
    if include_title then do
      let t ← tameString (← getKey (← getKey payload "issue") "title")
      pure (some t)
    else pure (none : Option String)
  pure (get_issue_event_message user_name action2 (get_issue_url rhtml issue_nr)
    issue_nr msg stringified_assignee title
    (if action == "assigned" then stringified_assignee else none))

/-- Source `format_issue_comment_event`. -/
def format_issue_comment_event (payload : JsonValue) (include_title : Bool) :
    Except Err Body := do
  let action0 ← tameString (← getKey payload "action")
  let comment ← getKey payload "comment"
  let issue ← getKey payload "issue"
  let action1 := if action0 == "created" then "[commented]" else action0 ++ " a [comment]"
  let curl ← tameString (← getKey comment "html_url")
  let action := action1 ++ "(" ++ curl ++ ") on"
  let user_name ← tameString (← getKey (← getKey payload "sender") "login")
  let rhtml ← tameString (← getKey (← getKey payload "repository") "html_url")
  let n1 ← tameInt (← getKey issue "number")
  let n2 ← tameInt (← getKey issue "number")
  let msg ← tameString (← getKey comment "body")
  let title ←
    if include_title then do
      let t ← tameString (← getKey issue "title")
      pure (some t)
    else pure (none : Option String)
  pure (get_issue_event_message user_name action (get_issue_url rhtml n1) n2 msg
    none title none)

/-- Source `format_release_event`; the include_title parameter of the source
signature is unused. -/
def format_release_event (payload : JsonValue) (_include_title : Bool) :
    Except Err Body := do
  let user_name ← tameString
    (← getKey (← getKey (← getKey payload "release") "author") "username")
  let action ← tameString (← getKey payload "action")
  let tagname ← tameString (← getKey (← getKey payload "release") "tag_name")
  let release_name ← tameString (← getKey (← getKey payload "release") "name")
  let url ← tameString (← getKey (← getKey payload "repository") "html_url")
  pure (get_release_event_message user_name action tagname release_name url)

/-- Source `handle_push_event`. -/
def handle_push_event (helper : Helper) :
    Except Err (Option String × Option Body) := do
  let branch := pyReplace (← tameString (← getKey helper.payload "ref")) "refs/heads/" ""
  if !is_branch_name_notifiable branch helper.branches then
    pure (none, none)
  else do
    let body ← format_push_event helper.payload
    pure (some (TOPIC_WITH_BRANCH_TEMPLATE helper.repo branch), some body)

/-- Source `handle_create_event`. -/
def handle_create_event (helper : Helper) :
    Except Err (Option String × Option Body) := do
  let body ← format_new_branch_event helper.payload
  let branch ← tameString (← getKey helper.payload "ref")
  pure (some (TOPIC_WITH_BRANCH_TEMPLATE helper.repo branch), some body)

/-- Source `handle_pull_request_event`; the injected formatter is the
`format_pull_request_event` of this module, as passed by `api_gogs_webhook`. -/
def handle_pull_request_event (helper : Helper) :
    Except Err (Option String × Option Body) := do
  let body ← format_pull_request_event helper.payload helper.user_specified_topic.isSome
  let pid ← tameInt (← getKey (← getKey helper.payload "pull_request") "id")
  let title ← tameString (← getKey (← getKey helper.payload "pull_request") "title")
  pure (some (TOPIC_WITH_PR_OR_ISSUE_INFO_TEMPLATE helper.repo "PR" pid title), some body)

/-- Source `handle_issues_event`. -/
def handle_issues_event (helper : Helper) :
    Except Err (Option String × Option Body) := do
  let body ← format_issues_event helper.payload helper.user_specified_topic.isSome
  let inum ← tameInt (← getKey (← getKey helper.payload "issue") "number")
  let title ← tameString (← getKey (← getKey helper.payload "issue") "title")
  pure (some (TOPIC_WITH_PR_OR_ISSUE_INFO_TEMPLATE helper.repo "issue" inum title),
    some body)

/-- Source `handle_issue_comment_event`.  The pull-request comment branch is
selected by the disambiguating event-kind field; the topic reads the repo
name directly from the payload. -/
def handle_issue_comment_event (helper : Helper) :
    Except Err (Option String × Option Body) := do
  let bt ←
    if helper.event_type == "pull_request_comment" then do
      let action ← tameString (← getKey helper.payload "action")
      let action_text :=
        (if action == "created" then "[commented]" else action ++ " a [comment]")
      let action_full := action_text ++ "(" ++
        (← tameString (← getKey (← getKey helper.payload "comment") "html_url")) ++ ") on"
      let user_name ← tameString (← getKey (← getKey helper.payload "sender") "login")
      let url ← tameString (← getKey (← getKey helper.payload "issue") "html_url")
      let number ← tameInt (← getKey (← getKey helper.payload "issue") "number")
      let msg ← tameString (← getKey (← getKey helper.payload "comment") "body")
      let title ← tameString (← getKey (← getKey helper.payload "issue") "title")
      pure (get_pull_request_event_message user_name action_full url number none none
        (some msg) "PR" (some title) none, "PR")
    else do
      let body ← format_issue_comment_event helper.payload
        helper.user_specified_topic.isSome
      pure (body, "issue")
  let rname ← tameString (← getKey (← getKey helper.payload "repository") "name")
  let inum ← tameInt (← getKey (← getKey helper.payload "issue") "number")
  let ititle ← tameString (← getKey (← getKey helper.payload "issue") "title")
  pure (some (TOPIC_WITH_PR_OR_ISSUE_INFO_TEMPLATE rname bt.2 inum ititle), some bt.1)

/-- Variant of `handle_issue_comment_event` following the convention of the
other handlers, with the topic repo component taken from the pre-resolved
dispatch context repo instead of the payload; used to state the refinement
claim about the two reads coinciding. -/
def handle_issue_comment_event_ctx_repo (helper : Helper) :
    Except Err (Option String × Option Body) := do
  let bt ←
    if helper.event_type == "pull_request_comment" then do
      let action ← tameString (← getKey helper.payload "action")
      let action_text :=
        (if action == "created" then "[commented]" else action ++ " a [comment]")
      let action_full := action_text ++ "(" ++
        (← tameString (← getKey (← getKey helper.payload "comment") "html_url")) ++ ") on"
      let user_name ← tameString (← getKey (← getKey helper.payload "sender") "login")
      let url ← tameString (← getKey (← getKey helper.payload "issue") "html_url")
      let number ← tameInt (← getKey (← getKey helper.payload "issue") "number")
      let msg ← tameString (← getKey (← getKey helper.payload "comment") "body")
      let title ← tameString (← getKey (← getKey helper.payload "issue") "title")
      pure (get_pull_request_event_message user_name action_full url number none none
        (some msg) "PR" (some title) none, "PR")
    else do
      let body ← format_issue_comment_event helper.payload
        helper.user_specified_topic.isSome
      pure (body, "issue")
  let rname := helper.repo
  let inum ← tameInt (← getKey (← getKey helper.payload "issue") "number")
  let ititle ← tameString (← getKey (← getKey helper.payload "issue") "title")
  pure (some (TOPIC_WITH_PR_OR_ISSUE_INFO_TEMPLATE rname bt.2 inum ititle), some bt.1)

/-- Source `handle_release_event`. -/
def handle_release_event (helper : Helper) :
    Except Err (Option String × Option Body) := do
  let body ← format_release_event helper.payload helper.user_specified_topic.isSome
  let tag ← tameString (← getKey (← getKey helper.payload "release") "tag_name")
  let title ← tameString (← getKey (← getKey helper.payload "release") "name")
  pure (some (TOPIC_WITH_RELEASE_TEMPLATE helper.repo tag title), some body)

/-- Source `GOGS_EVENT_FUNCTION_MAPPER`, the event-kind dispatch table. -/
def GOGS_EVENT_FUNCTION_MAPPER (event : String) :
    Option (Helper → Except Err (Option String × Option Body)) :=
  if event == "push" then some handle_push_event
  else if event == "create" then some handle_create_event
  else if event == "pull_request" then some handle_pull_request_event
  else if event == "issues" then some handle_issues_event
  else if event == "issue_comment" then some handle_issue_comment_event
  else if event == "release" then some handle_release_event
  else none

/-- The outcome of one dispatch: `sent` delivers exactly one message and
reports success, `successNoMessage` reports success with nothing sent,
`unsupportedEvent` raises UnsupportedWebhookEventTypeError, `failure`
propagates a handler error to the transport boundary. -/
inductive WebhookOutcome where
  | sent (topic : String) (body : Body)
  | successNoMessage
  | unsupportedEvent (event : String)
  | failure (e : Err)
deriving DecidableEq

/-- Source `gogs_webhook_main`, dispatch portion (the lookup in
`GOGS_EVENT_FUNCTION_MAPPER` and the send / silent-success /
UnsupportedWebhookEventTypeError decision).  The Python truthiness test
`if topic_name and body` holds when both components are present and the
topic string is non-empty; a present body is always truthy because rendered
template strings are never empty. -/
def dispatch (event : String) (helper : Helper) : WebhookOutcome :=
  match GOGS_EVENT_FUNCTION_MAPPER event with
  | none => .unsupportedEvent event
  | some handler =>
    match handler helper with
    | .error e => .failure e
    | .ok (some topic_name, some body) =>
      if topic_name == "" then
        if event == "push" then .successNoMessage else .unsupportedEvent event
      else .sent topic_name body
    | .ok (_, _) =>
      if event == "push" then .successNoMessage else .unsupportedEvent event

/-- Source `gogs_webhook_main`: resolves the repo from the payload, builds
the dispatch context and dispatches.  The event string is the already
extracted `X-Gogs-Event` header; the disambiguating event-kind header is
optional and defaults to the sentinel value when absent. -/
def gogs_webhook_main (event : String) (event_type_header : Option String)
    (payload : JsonValue) (branches : Option String)
    (user_specified_topic : Option String) : WebhookOutcome :=
  match (do
      let rj ← getKey payload "repository"
      let nj ← getKey rj "name"
      tameString nj : Except Err String) with
  | .error e => .failure e
  | .ok repo =>
    dispatch event
      ⟨payload, branches, user_specified_topic, repo,
        event_type_header.getD "default_event_type"⟩

/-! ### Concrete payloads used by witnesses and counterexamples -/

/-- Push payload whose single commit has an empty author username and a
whitespace-only author full name; every field read by the extractor is
present and of the right type. -/
def emptyAuthorPushPayload : JsonValue := .obj [
  ("repository", .obj [("name", .str "repo")]),
  ("sender", .obj [("username", .str "alice")]),
  ("compare_url", .str "c"),
  ("ref", .str "refs/heads/main"),
  ("commits", .arr [.obj [
    ("author", .obj [("username", .str ""), ("name", .str "  ")]),
    ("id", .str "abc123"),
    ("url", .str "u"),
    ("message", .str "fix bug")]])]

/-- A well-formed commit object with a non-empty author username. -/
def commitAlice : JsonValue := .obj [
  ("author", .obj [("username", .str "alice"), ("name", .str "Alice A")]),
  ("id", .str "abc123"),
  ("url", .str "u"),
  ("message", .str "fix bug")]

/-- Push payload whose ref contains the refs-heads marker twice: removing
every occurrence yields the branch x, while stripping one leading marker
yields a different branch name. -/
def doubleRefPushPayload : JsonValue := .obj [
  ("repository", .obj [("name", .str "repo")]),
  ("ref", .str "refs/heads/refs/heads/x"),
  ("sender", .obj [("username", .str "alice")]),
  ("compare_url", .str "c"),
  ("commits", .arr [])]

/-- Minimal push payload on branch dev, used with an allow-list that
excludes it. -/
def filteredPushPayload : JsonValue := .obj [
  ("repository", .obj [("name", .str "repo")]),
  ("ref", .str "refs/heads/dev")]

/-- An unmerged pull-request object with a present, truthy assignee. -/
def assigneePrObject : JsonValue := .obj [
  ("merged", .bool false),
  ("user", .obj [("username", .str "alice")]),
  ("html_url", .str "u"),
  ("number", .num 7),
  ("head_branch", .str "h"),
  ("base_branch", .str "b"),
  ("title", .str "T"),
  ("assignee", .obj [("login", .str "carol")]),
  ("id", .num 9)]

/-- Pull-request payload with an empty (falsy) action string and a present,
truthy assignee. -/
def emptyActionAssigneePayload : JsonValue := .obj [
  ("pull_request", assigneePrObject),
  ("action", .str "")]

/-- Pull-request payload with action assigned and a present assignee. -/
def assignedActionPayload : JsonValue := .obj [
  ("pull_request", assigneePrObject),
  ("action", .str "assigned")]

/-- A merged pull-request object. -/
def mergedPrObject : JsonValue := .obj [
  ("merged", .bool true),
  ("merged_by", .obj [("username", .str "bob")]),
  ("html_url", .str "u"),
  ("number", .num 3),
  ("head_branch", .str "h"),
  ("base_branch", .str "b"),
  ("title", .str "T"),
  ("assignee", .null),
  ("id", .num 9)]

/-- Merged pull-request payload. -/
def mergedPrPayload : JsonValue := .obj [
  ("pull_request", mergedPrObject),
  ("action", .str "closed"),
  ("repository", .obj [("name", .str "repo")])]

/-- Open pull-request payload with a null assignee. -/
def openedPrPayload : JsonValue := .obj [
  ("pull_request", .obj [
    ("merged", .bool false),
    ("user", .obj [("username", .str "alice")]),
    ("html_url", .str "u"),
    ("number", .num 3),
    ("head_branch", .str "h"),
    ("base_branch", .str "b"),
    ("title", .str "T"),
    ("assignee", .null),
    ("id", .num 9)]),
  ("action", .str "opened"),
  ("repository", .obj [("name", .str "repo")])]

/-- Issues payload with a null assignee. -/
def openedIssuePayload : JsonValue := .obj [
  ("issue", .obj [
    ("number", .num 5),
    ("assignee", .null),
    ("body", .str "B"),
    ("title", .str "T")]),
  ("action", .str "opened"),
  ("sender", .obj [("login", .str "bob")]),
  ("repository", .obj [("html_url", .str "R"), ("name", .str "repo")])]

/-- Issue-comment payload carrying every field used by both the issue-shaped
and the pull-request-shaped rendering. -/
def issueCommentPayload : JsonValue := .obj [
  ("action", .str "created"),
  ("comment", .obj [("html_url", .str "CU"), ("body", .str "CB")]),
  ("issue", .obj [("number", .num 7), ("title", .str "IT"), ("html_url", .str "IU")]),
  ("sender", .obj [("login", .str "carol")]),
  ("repository", .obj [("html_url", .str "R"), ("name", .str "repo")])]

/-- Release payload. -/
def releasePayload : JsonValue := .obj [
  ("release", .obj [
    ("author", .obj [("username", .str "rita")]),
    ("tag_name", .str "v1"),
    ("name", .str "first")]),
  ("action", .str "published"),
  ("repository", .obj [("html_url", .str "R"), ("name", .str "repo")])]

/-! ### Helper lemmas -/

theorem exceptBind_ok {α β : Type} (a : α) (f : α → Except Err β) :
    (Except.ok a >>= f) = f a := rfl

theorem exceptBind_err {α β : Type} (e : Err) (f : α → Except Err β) :
    ((Except.error e : Except Err α) >>= f) = .error e := rfl

theorem exceptPure_eq_ok {α : Type} (a : α) :
    (pure a : Except Err α) = .ok a := rfl

theorem exceptBind_eq_ok {α β : Type} {x : Except Err α} {f : α → Except Err β}
    {r : β} : (x >>= f) = .ok r ↔ ∃ a, x = .ok a ∧ f a = .ok r := by
  cases x with
  | error e => simp [exceptBind_err]
  | ok a => simp [exceptBind_ok]

theorem data_append (s t : String) : (s ++ t).data = s.data ++ t.data := by
  cases s
  cases t
  rfl

theorem eq_empty_of_data_eq_nil {s : String} (h : s.data = []) : s = "" := by
  cases s with
  | mk d =>
    subst h
    rfl

theorem append_left_ne_empty (s t : String) (hs : s ≠ "") : s ++ t ≠ "" := by
  intro h
  apply hs
  have hd := congrArg String.data h
  rw [data_append] at hd
  rcases List.append_eq_nil.mp hd with ⟨h1, _⟩
  exact eq_empty_of_data_eq_nil h1

theorem append_right_ne_empty (s t : String) (ht : t ≠ "") : s ++ t ≠ "" := by
  intro h
  apply ht
  have hd := congrArg String.data h
  rw [data_append] at hd
  rcases List.append_eq_nil.mp hd with ⟨_, h2⟩
  exact eq_empty_of_data_eq_nil h2

theorem topic_branch_ne_empty (repo branch : String) :
    TOPIC_WITH_BRANCH_TEMPLATE repo branch ≠ "" := by
  unfold TOPIC_WITH_BRANCH_TEMPLATE
  exact append_left_ne_empty _ _ (append_right_ne_empty _ _ (by decide))

theorem topic_pr_issue_ne_empty (repo type : String) (id : Int) (title : String) :
    TOPIC_WITH_PR_OR_ISSUE_INFO_TEMPLATE repo type id title ≠ "" := by
  unfold TOPIC_WITH_PR_OR_ISSUE_INFO_TEMPLATE
  exact append_left_ne_empty _ _ (append_right_ne_empty _ _ (by decide))

theorem topic_release_ne_empty (repo tag title : String) :
    TOPIC_WITH_RELEASE_TEMPLATE repo tag title ≠ "" := by
  unfold TOPIC_WITH_RELEASE_TEMPLATE
  exact append_left_ne_empty _ _ (append_right_ne_empty _ _ (by decide))

theorem handle_create_event_shape (h : Helper) (r : Option String × Option Body)
    (hr : handle_create_event h = .ok r) :
    ∃ t b, r = (some t, some b) ∧ t ≠ "" := by
  unfold handle_create_event at hr
  simp only [exceptBind_eq_ok, exceptPure_eq_ok, Except.ok.injEq] at hr
  repeat obtain ⟨_, _, hr⟩ := hr
  first
  | exact ⟨_, _, hr.symm, topic_branch_ne_empty _ _⟩
  | exact ⟨_, _, rfl, topic_branch_ne_empty _ _⟩

theorem handle_pull_request_event_shape (h : Helper) (r : Option String × Option Body)
    (hr : handle_pull_request_event h = .ok r) :
    ∃ t b, r = (some t, some b) ∧ t ≠ "" := by
  unfold handle_pull_request_event at hr
  simp only [exceptBind_eq_ok, exceptPure_eq_ok, Except.ok.injEq] at hr
  repeat obtain ⟨_, _, hr⟩ := hr
  first
  | exact ⟨_, _, hr.symm, topic_pr_issue_ne_empty _ _ _ _⟩
  | exact ⟨_, _, rfl, topic_pr_issue_ne_empty _ _ _ _⟩

theorem handle_issues_event_shape (h : Helper) (r : Option String × Option Body)
    (hr : handle_issues_event h = .ok r) :
    ∃ t b, r = (some t, some b) ∧ t ≠ "" := by
  unfold handle_issues_event at hr
  simp only [exceptBind_eq_ok, exceptPure_eq_ok, Except.ok.injEq] at hr
  repeat obtain ⟨_, _, hr⟩ := hr
  first
  | exact ⟨_, _, hr.symm, topic_pr_issue_ne_empty _ _ _ _⟩
  | exact ⟨_, _, rfl, topic_pr_issue_ne_empty _ _ _ _⟩

theorem handle_issue_comment_event_shape (h : Helper) (r : Option String × Option Body)
    (hr : handle_issue_comment_event h = .ok r) :
    ∃ t b, r = (some t, some b) ∧ t ≠ "" := by
  unfold handle_issue_comment_event at hr
  split at hr
  · simp only [exceptBind_eq_ok, exceptPure_eq_ok, Except.ok.injEq] at hr
    repeat obtain ⟨_, _, hr⟩ := hr
    first
    | exact ⟨_, _, hr.symm, topic_pr_issue_ne_empty _ _ _ _⟩
    | exact ⟨_, _, rfl, topic_pr_issue_ne_empty _ _ _ _⟩
  · simp only [exceptBind_eq_ok, exceptPure_eq_ok, Except.ok.injEq] at hr
    repeat obtain ⟨_, _, hr⟩ := hr
    first
    | exact ⟨_, _, hr.symm, topic_pr_issue_ne_empty _ _ _ _⟩
    | exact ⟨_, _, rfl, topic_pr_issue_ne_empty _ _ _ _⟩

theorem handle_release_event_shape (h : Helper) (r : Option String × Option Body)
    (hr : handle_release_event h = .ok r) :
    ∃ t b, r = (some t, some b) ∧ t ≠ "" := by
  unfold handle_release_event at hr
  simp only [exceptBind_eq_ok, exceptPure_eq_ok, Except.ok.injEq] at hr
  repeat obtain ⟨_, _, hr⟩ := hr
  first
  | exact ⟨_, _, hr.symm, topic_release_ne_empty _ _ _⟩
  | exact ⟨_, _, rfl, topic_release_ne_empty _ _ _⟩

theorem handle_push_event_shape (h : Helper) (r : Option String × Option Body)
    (hr : handle_push_event h = .ok r) :
    r = (none, none) ∨ ∃ t b, r = (some t, some b) ∧ t ≠ "" := by
  unfold handle_push_event at hr
  simp only [exceptBind_eq_ok, exceptPure_eq_ok, Except.ok.injEq] at hr
  obtain ⟨a1, h1, a2, h2, hr⟩ := hr
  split at hr
  · left
    simp only [exceptPure_eq_ok, Except.ok.injEq] at hr
    exact hr.symm
  · right
    simp only [exceptBind_eq_ok, exceptPure_eq_ok, Except.ok.injEq] at hr
    obtain ⟨b1, hb1, hr⟩ := hr
    exact ⟨_, _, hr.symm, topic_branch_ne_empty _ _⟩

theorem dispatch_silent_only_push (event : String) (helper : Helper)
    (h : dispatch event helper = .successNoMessage) : event = "push" := by
  unfold dispatch at h
  cases hm : GOGS_EVENT_FUNCTION_MAPPER event with
  | none => simp only [hm] at h; cases h
  | some hd =>
    simp only [hm] at h
    cases hres : hd helper with
    | error e => simp only [hres] at h; cases h
    | ok r =>
      simp only [hres] at h
      obtain ⟨t, b⟩ := r
      rcases t with _ | ts <;> rcases b with _ | bs <;> simp only [] at h <;>
        split at h <;> simp_all

theorem mapper_none_iff (event : String) :
    GOGS_EVENT_FUNCTION_MAPPER event = none ↔
      event ∉ ["push", "create", "pull_request", "issues", "issue_comment", "release"] := by
  unfold GOGS_EVENT_FUNCTION_MAPPER
  by_cases h1 : event = "push" <;> by_cases h2 : event = "create" <;>
    by_cases h3 : event = "pull_request" <;> by_cases h4 : event = "issues" <;>
    by_cases h5 : event = "issue_comment" <;> by_cases h6 : event = "release" <;>
    simp [h1, h2, h3, h4, h5, h6]

theorem mapper_cases (event : String)
    (hd : Helper → Except Err (Option String × Option Body))
    (hm : GOGS_EVENT_FUNCTION_MAPPER event = some hd) :
    (event = "push" ∧ hd = handle_push_event) ∨
    (event ≠ "push" ∧ hd = handle_create_event) ∨
    (event ≠ "push" ∧ hd = handle_pull_request_event) ∨
    (event ≠ "push" ∧ hd = handle_issues_event) ∨
    (event ≠ "push" ∧ hd = handle_issue_comment_event) ∨
    (event ≠ "push" ∧ hd = handle_release_event) := by
  unfold GOGS_EVENT_FUNCTION_MAPPER at hm
  split at hm
  · exact Or.inl ⟨by simp_all, (Option.some.inj hm).symm⟩
  · split at hm
    · exact Or.inr (Or.inl ⟨by simp_all, (Option.some.inj hm).symm⟩)
    · split at hm
      · exact Or.inr (Or.inr (Or.inl ⟨by simp_all, (Option.some.inj hm).symm⟩))
      · split at hm
        · exact Or.inr (Or.inr (Or.inr (Or.inl ⟨by simp_all, (Option.some.inj hm).symm⟩)))
        · split at hm
          · exact Or.inr (Or.inr (Or.inr (Or.inr (Or.inl
              ⟨by simp_all, (Option.some.inj hm).symm⟩))))
          · split at hm
            · exact Or.inr (Or.inr (Or.inr (Or.inr (Or.inr
                ⟨by simp_all, (Option.some.inj hm).symm⟩))))
            · cases hm

theorem dispatch_unknown (event : String) (helper : Helper)
    (hm : GOGS_EVENT_FUNCTION_MAPPER event = none) :
    dispatch event helper = .unsupportedEvent event := by
  unfold dispatch
  simp only [hm]

theorem dispatch_null_null (event : String)
    (hd : Helper → Except Err (Option String × Option Body)) (helper : Helper)
    (hm : GOGS_EVENT_FUNCTION_MAPPER event = some hd)
    (hne : event ≠ "push") (hr : hd helper = .ok (none, none)) :
    dispatch event helper = .unsupportedEvent event := by
  unfold dispatch
  simp only [hm, hr]
  simp [hne]

theorem dispatch_sent (event : String)
    (hd : Helper → Except Err (Option String × Option Body)) (helper : Helper)
    (t : String) (b : Body)
    (hm : GOGS_EVENT_FUNCTION_MAPPER event = some hd)
    (hr : hd helper = .ok (some t, some b)) (ht : t ≠ "") :
    dispatch event helper = .sent t b := by
  unfold dispatch
  simp only [hm, hr]
  simp [ht]

theorem dispatch_unsupported_inv (event : String) (helper : Helper) (e : String)
    (h : dispatch event helper = .unsupportedEvent e) :
    GOGS_EVENT_FUNCTION_MAPPER event = none := by
  cases hm : GOGS_EVENT_FUNCTION_MAPPER event with
  | none => rfl
  | some hd =>
    exfalso
    unfold dispatch at h
    simp only [hm] at h
    cases hres : hd helper with
    | error e2 => simp only [hres] at h; cases h
    | ok r =>
      simp only [hres] at h
      rcases mapper_cases event hd hm with ⟨hev, hhd⟩ | ⟨hev, hhd⟩ | ⟨hev, hhd⟩ |
        ⟨hev, hhd⟩ | ⟨hev, hhd⟩ | ⟨hev, hhd⟩
      · subst hhd
        rcases handle_push_event_shape helper r hres with hnn | ⟨t, b, hsome, htne⟩
        · subst hnn; simp [hev] at h
        · subst hsome; simp [htne, hev] at h
      · subst hhd
        obtain ⟨t, b, hsome, htne⟩ := handle_create_event_shape helper r hres
        subst hsome; simp [htne] at h
      · subst hhd
        obtain ⟨t, b, hsome, htne⟩ := handle_pull_request_event_shape helper r hres
        subst hsome; simp [htne] at h
      · subst hhd
        obtain ⟨t, b, hsome, htne⟩ := handle_issues_event_shape helper r hres
        subst hsome; simp [htne] at h
      · subst hhd
        obtain ⟨t, b, hsome, htne⟩ := handle_issue_comment_event_shape helper r hres
        subst hsome; simp [htne] at h
      · subst hhd
        obtain ⟨t, b, hsome, htne⟩ := handle_release_event_shape helper r hres
        subst hsome; simp [htne] at h

/-- C10: there is a schema-valid push payload — one whose commit has an
empty author username and a whitespace-only author full name — on which the
commit-list transformation and hence the push formatter fail with an
IndexError (first token of an empty split), not a SchemaViolation: the push
formatter is not total on payloads the field extractor accepts. -/
theorem C10_empty_author_index_error :
    _transform_commits_list_to_common_format
        (JsonValue.arr [JsonValue.obj [
          ("author", JsonValue.obj [("username", JsonValue.str ""),
            ("name", JsonValue.str "  ")]),
          ("id", JsonValue.str "abc123"),
          ("url", JsonValue.str "u"),
          ("message", JsonValue.str "fix bug")]]) = .error .indexError ∧
    format_push_event emptyAuthorPushPayload = .error .indexError ∧
    Err.indexError ≠ Err.schemaViolation :=
  ⟨by rfl, by rfl, by decide⟩

/-- C8: for every commit of a push payload commit list, the transformation
maps the list elementwise; for one commit, the CommitSummary name is the
commit author username when that is non-empty and otherwise the first
whitespace-separated token of the commit author full name, while the sha,
url and message fields are copied unchanged from the id, url and message
fields of the commit. -/
theorem C8_commit_summary_fields
    (cs : List JsonValue) (c author : JsonValue)
    (uj ij lj mj : JsonValue) (u sha url msg : String)
    (hauthor : getKey c "author" = .ok author)
    (huj : getKey author "username" = .ok uj) (hu : tameString uj = .ok u)
    (hij : getKey c "id" = .ok ij) (hsha : tameString ij = .ok sha)
    (hlj : getKey c "url" = .ok lj) (hurl : tameString lj = .ok url)
    (hmj : getKey c "message" = .ok mj) (hmsg : tameString mj = .ok msg) :
    _transform_commits_list_to_common_format (JsonValue.arr cs) =
        cs.mapM transformCommit ∧
    (u ≠ "" → transformCommit c = .ok ⟨u, sha, url, msg⟩) ∧
    (u = "" → ∀ nj nm t ts, getKey author "name" = .ok nj → tameString nj = .ok nm →
        pySplitWs nm = t :: ts → transformCommit c = .ok ⟨t, sha, url, msg⟩) := by
  refine ⟨rfl, ?_, ?_⟩
  · intro hne
    unfold transformCommit
    simp only [hauthor, exceptBind_ok, huj, hu, hij, hsha, hlj, hurl, hmj, hmsg]
    simp [hne, exceptPure_eq_ok, exceptBind_ok]
  · intro heq nj nm t ts hnj hnm hsplit
    subst heq
    unfold transformCommit
    simp only [hauthor, exceptBind_ok, huj, hu, hij, hsha, hlj, hurl, hmj, hmsg,
      hnj, hnm, hsplit]
    simp [exceptPure_eq_ok, exceptBind_ok]

/-- Witness for C8 at a concrete commit: the author username alice is
non-empty, so the summary copies it along with sha, url and message. -/
theorem C8_commit_summary_fields_witness :
    transformCommit commitAlice = .ok ⟨"alice", "abc123", "u", "fix bug"⟩ :=
  (C8_commit_summary_fields [] commitAlice
      (.obj [("username", .str "alice"), ("name", .str "Alice A")])
      (.str "alice") (.str "abc123") (.str "u") (.str "fix bug")
      "alice" "abc123" "u" "fix bug"
      rfl rfl rfl rfl rfl rfl rfl rfl rfl).2.1 (by decide)

theorem push_filtered_none (helper : Helper) (refJ : JsonValue) (refS : String)
    (h1 : getKey helper.payload "ref" = .ok refJ)
    (h2 : tameString refJ = .ok refS)
    (h3 : is_branch_name_notifiable (pyReplace refS "refs/heads/" "")
      helper.branches = false) :
    handle_push_event helper = .ok (none, none) := by
  unfold handle_push_event
  simp only [h1, exceptBind_ok, h2, h3]
  rfl

theorem main_push_filtered_silent (eth : Option String) (p : JsonValue)
    (br ut : Option String) (refJ : JsonValue) (refS : String)
    (rj nj : JsonValue) (rs : String)
    (h1 : getKey p "repository" = .ok rj) (h2 : getKey rj "name" = .ok nj)
    (h3 : tameString nj = .ok rs)
    (h4 : getKey p "ref" = .ok refJ) (h5 : tameString refJ = .ok refS)
    (h6 : is_branch_name_notifiable (pyReplace refS "refs/heads/" "") br = false) :
    gogs_webhook_main "push" eth p br ut = .successNoMessage := by
  unfold gogs_webhook_main
  simp only [h1, exceptBind_ok, h2, h3]
  have hp := push_filtered_none ⟨p, br, ut, rs, eth.getD "default_event_type"⟩
    refJ refS h4 h5 h6
  unfold dispatch
  have hm : GOGS_EVENT_FUNCTION_MAPPER "push" = some handle_push_event := rfl
  simp only [hm, hp]
  rfl

theorem main_silent_only_push (event : String) (eth : Option String)
    (p : JsonValue) (br ut : Option String) (hne : event ≠ "push") :
    gogs_webhook_main event eth p br ut ≠ .successNoMessage := by
  intro h
  unfold gogs_webhook_main at h
  cases hrep : (do
      let rj ← getKey p "repository"
      let nj ← getKey rj "name"
      tameString nj : Except Err String) with
  | error e => simp only [hrep] at h; cases h
  | ok rs =>
    simp only [hrep] at h
    exact hne (dispatch_silent_only_push event _ h)

/-- C7: every handler in the dispatch table, on every dispatch context on
which it returns a pair, returns either both a topic and a body or neither;
no handler returns one component present and the other absent. -/
theorem C7_handlers_both_or_neither (event : String)
    (hd : Helper → Except Err (Option String × Option Body)) (helper : Helper)
    (t : Option String) (b : Option Body)
    (hm : GOGS_EVENT_FUNCTION_MAPPER event = some hd)
    (hr : hd helper = .ok (t, b)) :
    (t = none ∧ b = none) ∨ (∃ ts bs, t = some ts ∧ b = some bs) := by
  rcases mapper_cases event hd hm with ⟨_, hhd⟩ | ⟨_, hhd⟩ | ⟨_, hhd⟩ |
    ⟨_, hhd⟩ | ⟨_, hhd⟩ | ⟨_, hhd⟩ <;> subst hhd
  · rcases handle_push_event_shape helper _ hr with hnn | ⟨ts, bs, hp, _⟩
    · exact Or.inl ⟨congrArg Prod.fst hnn, congrArg Prod.snd hnn⟩
    · exact Or.inr ⟨ts, bs, congrArg Prod.fst hp, congrArg Prod.snd hp⟩
  · obtain ⟨ts, bs, hp, _⟩ := handle_create_event_shape helper _ hr
    exact Or.inr ⟨ts, bs, congrArg Prod.fst hp, congrArg Prod.snd hp⟩
  · obtain ⟨ts, bs, hp, _⟩ := handle_pull_request_event_shape helper _ hr
    exact Or.inr ⟨ts, bs, congrArg Prod.fst hp, congrArg Prod.snd hp⟩
  · obtain ⟨ts, bs, hp, _⟩ := handle_issues_event_shape helper _ hr
    exact Or.inr ⟨ts, bs, congrArg Prod.fst hp, congrArg Prod.snd hp⟩
  · obtain ⟨ts, bs, hp, _⟩ := handle_issue_comment_event_shape helper _ hr
    exact Or.inr ⟨ts, bs, congrArg Prod.fst hp, congrArg Prod.snd hp⟩
  · obtain ⟨ts, bs, hp, _⟩ := handle_release_event_shape helper _ hr
    exact Or.inr ⟨ts, bs, congrArg Prod.fst hp, congrArg Prod.snd hp⟩

/-- Witness for C7: the push handler on a filtered branch returns the
both-absent pair. -/
theorem C7_handlers_both_or_neither_witness :
    ((none : Option String) = none ∧ (none : Option Body) = none) ∨
      (∃ ts bs, (none : Option String) = some ts ∧ (none : Option Body) = some bs) :=
  C7_handlers_both_or_neither "push" handle_push_event
    ⟨filteredPushPayload, some "main", none, "repo", "default_event_type"⟩
    none none rfl (by rfl)

/-- C2: the dispatcher raises UnsupportedWebhookEventTypeError exactly when
the event-kind is outside the known set or a known non-push handler returns
the both-absent pair; an unknown event-kind yields that failure for every
dispatch context, without depending on any handler result; and when a
handler returns a non-empty topic together with a body, exactly one message
is delivered and success is reported. -/
theorem C2_dispatcher_error_characterization :
    (∀ event, GOGS_EVENT_FUNCTION_MAPPER event = none ↔
        event ∉ ["push", "create", "pull_request", "issues", "issue_comment", "release"]) ∧
    (∀ event helper, GOGS_EVENT_FUNCTION_MAPPER event = none →
        dispatch event helper = .unsupportedEvent event) ∧
    (∀ event hd helper, GOGS_EVENT_FUNCTION_MAPPER event = some hd →
        event ≠ "push" → hd helper = .ok (none, none) →
        dispatch event helper = .unsupportedEvent event) ∧
    (∀ event helper e, dispatch event helper = .unsupportedEvent e →
        GOGS_EVENT_FUNCTION_MAPPER event = none ∨
          (event ≠ "push" ∧ ∃ hd, GOGS_EVENT_FUNCTION_MAPPER event = some hd ∧
            hd helper = .ok (none, none))) ∧
    (∀ event hd helper t b, GOGS_EVENT_FUNCTION_MAPPER event = some hd →
        hd helper = .ok (some t, some b) → t ≠ "" →
        dispatch event helper = .sent t b) :=
  ⟨mapper_none_iff, dispatch_unknown,
   fun event hd helper hm hne hr => dispatch_null_null event hd helper hm hne hr,
   fun event helper e h => Or.inl (dispatch_unsupported_inv event helper e h),
   fun event hd helper t b hm hr ht => dispatch_sent event hd helper t b hm hr ht⟩

/-- Witness for C2: the unknown event-kind unknown_event is refused for an
arbitrary context, and a complete release payload yields exactly one sent
message. -/
theorem C2_dispatcher_error_characterization_witness :
    GOGS_EVENT_FUNCTION_MAPPER "unknown_event" = none ∧
    dispatch "unknown_event"
        ⟨filteredPushPayload, none, none, "repo", "default_event_type"⟩ =
      .unsupportedEvent "unknown_event" ∧
    dispatch "release" ⟨releasePayload, none, none, "repo", "default_event_type"⟩ =
      .sent "repo / v1 first" (Body.release ⟨"rita", "published", "v1", "first", "R"⟩) :=
  have h := C2_dispatcher_error_characterization
  ⟨(h.1 "unknown_event").mpr (by decide),
   h.2.1 "unknown_event" _ ((h.1 "unknown_event").mpr (by decide)),
   h.2.2.2.2 "release" handle_release_event _ "repo / v1 first"
     (Body.release ⟨"rita", "published", "v1", "first", "R"⟩) rfl (by rfl) (by decide)⟩

/-- C1 counterexample: the claim describes the branch as the ref with the
leading refs-heads marker stripped.  The payload ref here is the marker
followed by refs/heads/x, so the stripped branch name is refs/heads/x, which
fails the allow-list x — by the claim the handler must return the absent
pair and no message may be delivered.  The code instead removes every
occurrence of the marker, obtains branch x, and delivers a message. -/
theorem C1_counterexample :
    "refs/heads/" ++ "refs/heads/x" = "refs/heads/refs/heads/x" ∧
    getKey doubleRefPushPayload "ref" = .ok (.str "refs/heads/refs/heads/x") ∧
    is_branch_name_notifiable "refs/heads/x" (some "x") = false ∧
    gogs_webhook_main "push" none doubleRefPushPayload (some "x") none =
      .sent "repo / x" (Body.pushCommits ⟨"alice", "c", "x", []⟩) :=
  ⟨by decide, by rfl, by decide, by decide⟩

/-- C1 (amended): for every push event, if the branch name obtained by
removing every occurrence of refs/heads/ from the payload ref does not pass
the caller-supplied branch allow-list predicate (a missing allow-list passes
every branch), the push handler returns the both-absent pair, no message is
delivered, and the dispatcher reports success; and this silent-success
outcome occurs for no other event kind. -/
theorem C1_amended_push_filtering :
    (∀ helper refJ refS, getKey helper.payload "ref" = .ok refJ →
        tameString refJ = .ok refS →
        is_branch_name_notifiable (pyReplace refS "refs/heads/" "")
          helper.branches = false →
        handle_push_event helper = .ok (none, none)) ∧
    (∀ eth p br ut refJ refS rj nj rs,
        getKey p "repository" = .ok rj → getKey rj "name" = .ok nj →
        tameString nj = .ok rs →
        getKey p "ref" = .ok refJ → tameString refJ = .ok refS →
        is_branch_name_notifiable (pyReplace refS "refs/heads/" "") br = false →
        gogs_webhook_main "push" eth p br ut = .successNoMessage) ∧
    (∀ event eth p br ut, event ≠ "push" →
        gogs_webhook_main event eth p br ut ≠ .successNoMessage) :=
  ⟨push_filtered_none,
   fun eth p br ut refJ refS rj nj rs h1 h2 h3 h4 h5 h6 =>
     main_push_filtered_silent eth p br ut refJ refS rj nj rs h1 h2 h3 h4 h5 h6,
   main_silent_only_push⟩

/-- Witness for C1 (amended): a push to branch dev with allow-list main is
silently accepted with no message, and a create event never produces the
silent-success outcome. -/
theorem C1_amended_push_filtering_witness :
    handle_push_event
        ⟨filteredPushPayload, some "main", none, "repo", "default_event_type"⟩ =
      .ok (none, none) ∧
    gogs_webhook_main "push" none filteredPushPayload (some "main") none =
      .successNoMessage ∧
    gogs_webhook_main "create" none filteredPushPayload (some "main") none ≠
      .successNoMessage :=
  have h := C1_amended_push_filtering
  ⟨h.1 _ (.str "refs/heads/dev") "refs/heads/dev" rfl rfl (by decide),
   h.2.1 none filteredPushPayload (some "main") none (.str "refs/heads/dev")
     "refs/heads/dev" (.obj [("name", .str "repo")]) (.str "repo") "repo"
     rfl rfl rfl rfl rfl (by decide),
   h.2.2 "create" none filteredPushPayload (some "main") none (by decide)⟩

/-- C3 counterexample: on this payload the pull-request assignee exists (the
assignee field is present and truthy), yet the formatted body carries no
assignee-changed note (the assignee_updated component is absent), because
the payload action string is empty and therefore falsy, and the code guards
the note behind the truthiness of the action field as well. -/
theorem C3_counterexample :
    getKey emptyActionAssigneePayload "pull_request" = .ok assigneePrObject ∧
    getKey assigneePrObject "assignee" = .ok (.obj [("login", .str "carol")]) ∧
    truthy (.obj [("login", .str "carol")]) = true ∧
    format_pull_request_event emptyActionAssigneePayload false =
      .ok (Body.pullRequest
        ⟨"alice", "", "u", 7, some "h", some "b", none, "PR", none, none⟩) :=
  ⟨by rfl, by rfl, by decide, by rfl⟩

set_option maxHeartbeats 2000000 in
/-- C3 (amended): for every pull_request payload, the assignee-changed note
is included in the formatted pull-request body if and only if the payload
action field is truthy (present and non-empty) and an assignee exists on the
payload (the assignee field is truthy). -/
theorem C3_amended_assignee_note (p prj aj asj : JsonValue) (it : Bool)
    (m : PullRequestEventMessage)
    (hrun : format_pull_request_event p it = .ok (Body.pullRequest m))
    (hpr : getKey p "pull_request" = .ok prj)
    (ha : getKey p "action" = .ok aj)
    (has : getKey prj "assignee" = .ok asj) :
    (m.assignee_updated ≠ none ↔ (truthy aj = true ∧ truthy asj = true)) := by
  unfold format_pull_request_event at hrun
  simp only [exceptBind_eq_ok, exceptPure_eq_ok, Except.ok.injEq,
    get_pull_request_event_message, exists_eq_left, exists_eq_left'] at hrun
  repeat' (first
    | (obtain ⟨_, _, hrun⟩ := hrun)
    | (split at hrun)
    | (simp only [exceptBind_ok, exceptBind_eq_ok, exceptPure_eq_ok, Except.ok.injEq,
        exists_eq_left, exists_eq_left'] at hrun))
  all_goals simp_all

/-- Witness for C3 (amended): with action assigned and assignee carol the
note is present, and both truthiness conditions hold. -/
theorem C3_amended_assignee_note_witness :
    ((some "carol" : Option String) ≠ none ↔
      (truthy (.str "assigned") = true ∧
        truthy (.obj [("login", .str "carol")]) = true)) :=
  C3_amended_assignee_note assignedActionPayload assigneePrObject
    (.str "assigned") (.obj [("login", .str "carol")]) false
    ⟨"alice", "assigned", "u", 7, some "h", some "b", none, "PR", none, some "carol"⟩
    (by rfl) (by rfl) (by rfl) (by rfl)

set_option maxHeartbeats 2000000 in
/-- C6: for every pull_request payload, if the merged flag is true the
formatted action is merged and the actor is the merger username, and the
head and base branches are extracted (merged never equals edited); if the
merged flag is false the action is the raw payload action string and the
actor is the pull-request author username, and the head and base branches
are extracted exactly when the action is not edited. -/
theorem C6_merged_action_actor_branches (p prj mj : JsonValue) (it : Bool)
    (m : PullRequestEventMessage)
    (hrun : format_pull_request_event p it = .ok (Body.pullRequest m))
    (hpr : getKey p "pull_request" = .ok prj)
    (hmj : getKey prj "merged" = .ok mj) :
    (tameBool mj = .ok true →
        m.action = "merged" ∧
        (∀ mbj uj u, getKey prj "merged_by" = .ok mbj →
          getKey mbj "username" = .ok uj → tameString uj = .ok u →
          m.user_name = u) ∧
        m.target_branch ≠ none ∧ m.base_branch ≠ none) ∧
    (tameBool mj = .ok false →
        (∀ aj a, getKey p "action" = .ok aj → tameString aj = .ok a →
          m.action = a) ∧
        (∀ usj uj u, getKey prj "user" = .ok usj →
          getKey usj "username" = .ok uj → tameString uj = .ok u →
          m.user_name = u) ∧
        (m.action ≠ "edited" → m.target_branch ≠ none ∧ m.base_branch ≠ none) ∧
        (m.action = "edited" → m.target_branch = none ∧ m.base_branch = none)) := by
  unfold format_pull_request_event at hrun
  simp only [exceptBind_eq_ok, exceptPure_eq_ok, Except.ok.injEq,
    get_pull_request_event_message, exists_eq_left, exists_eq_left'] at hrun
  repeat' (first
    | (obtain ⟨_, _, hrun⟩ := hrun)
    | (split at hrun)
    | (simp only [exceptBind_ok, exceptBind_eq_ok, exceptPure_eq_ok, Except.ok.injEq,
        exists_eq_left, exists_eq_left'] at hrun))
  all_goals (try simp_all)
  all_goals (try (intros; simp_all))
  all_goals (and_intros <;> (intros; simp_all))

/-- Witness for C6 at a concrete merged pull request: the formatted action is
merged, the actor is the merger bob, and both branch names are extracted. -/
theorem C6_merged_action_actor_branches_witness :
    (⟨"bob", "merged", "u", 3, some "h", some "b", none, "PR", none, none⟩ :
        PullRequestEventMessage).action = "merged" ∧
    (⟨"bob", "merged", "u", 3, some "h", some "b", none, "PR", none, none⟩ :
        PullRequestEventMessage).user_name = "bob" ∧
    ((some "h" : Option String) ≠ none ∧ (some "b" : Option String) ≠ none) :=
  have h := C6_merged_action_actor_branches mergedPrPayload mergedPrObject
    (.bool true) false
    ⟨"bob", "merged", "u", 3, some "h", some "b", none, "PR", none, none⟩
    (by rfl) (by rfl) (by rfl)
  have h1 := h.1 (by rfl)
  ⟨h1.1,
   h1.2.1 (.obj [("username", .str "bob")]) (.str "bob") "bob"
     (by rfl) (by rfl) (by rfl),
   h1.2.2⟩

/-- C5: for the pull_request, issues and non-PR issue_comment handlers, the
body handed to the dispatcher is the result of the corresponding formatter
invoked with the includeTitle flag true exactly when the caller supplied a
user-specified topic override. -/
theorem C5_include_title_iff_topic_override :
    (∀ helper t b, handle_pull_request_event helper = .ok (t, b) →
        ∃ bd, b = some bd ∧
          format_pull_request_event helper.payload
            helper.user_specified_topic.isSome = .ok bd) ∧
    (∀ helper t b, handle_issues_event helper = .ok (t, b) →
        ∃ bd, b = some bd ∧
          format_issues_event helper.payload
            helper.user_specified_topic.isSome = .ok bd) ∧
    (∀ helper t b, helper.event_type ≠ "pull_request_comment" →
        handle_issue_comment_event helper = .ok (t, b) →
        ∃ bd, b = some bd ∧
          format_issue_comment_event helper.payload
            helper.user_specified_topic.isSome = .ok bd) := by
  refine ⟨?_, ?_, ?_⟩
  · intro helper t b h
    unfold handle_pull_request_event at h
    simp only [exceptBind_eq_ok, exceptPure_eq_ok, Except.ok.injEq] at h
    obtain ⟨bd, hbd, h⟩ := h
    refine ⟨bd, ?_, hbd⟩
    repeat obtain ⟨_, _, h⟩ := h
    first
    | exact (congrArg Prod.snd h).symm
    | exact (congrArg Prod.snd h.symm).symm
    | rfl
  · intro helper t b h
    unfold handle_issues_event at h
    simp only [exceptBind_eq_ok, exceptPure_eq_ok, Except.ok.injEq] at h
    obtain ⟨bd, hbd, h⟩ := h
    refine ⟨bd, ?_, hbd⟩
    repeat obtain ⟨_, _, h⟩ := h
    first
    | exact (congrArg Prod.snd h).symm
    | exact (congrArg Prod.snd h.symm).symm
    | rfl
  · intro helper t b hne h
    unfold handle_issue_comment_event at h
    split at h
    · exact absurd (by simp_all) hne
    · simp only [exceptBind_eq_ok, exceptPure_eq_ok, Except.ok.injEq] at h
      obtain ⟨bd, hbd, h⟩ := h
      obtain ⟨bt, hbt, h⟩ := h
      subst hbt
      refine ⟨bd, ?_, hbd⟩
      repeat obtain ⟨_, _, h⟩ := h
      first
      | exact (congrArg Prod.snd h).symm
      | exact (congrArg Prod.snd h.symm).symm
      | rfl

/-- Witness for C5: three concrete handler runs without a topic override; in
each, the body is the formatter output with the includeTitle flag false. -/
theorem C5_include_title_iff_topic_override_witness :
    (∃ bd, (some (Body.pullRequest
        ⟨"alice", "opened", "u", 3, some "h", some "b", none, "PR", none, none⟩) :
          Option Body) = some bd ∧
      format_pull_request_event openedPrPayload false = .ok bd) ∧
    (∃ bd, (some (Body.issueEvent
        ⟨"bob", "opened", "R/issues/5", 5, "B", none, none, none⟩) :
          Option Body) = some bd ∧
      format_issues_event openedIssuePayload false = .ok bd) ∧
    (∃ bd, (some (Body.issueEvent
        ⟨"carol", "[commented](CU) on", "R/issues/7", 7, "CB", none, none, none⟩) :
          Option Body) = some bd ∧
      format_issue_comment_event issueCommentPayload false = .ok bd) :=
  have h := C5_include_title_iff_topic_override
  ⟨h.1 ⟨openedPrPayload, none, none, "repo", "default_event_type"⟩ _ _ (by rfl),
   h.2.1 ⟨openedIssuePayload, none, none, "repo", "default_event_type"⟩ _ _ (by rfl),
   h.2.2 ⟨issueCommentPayload, none, none, "repo", "default_event_type"⟩ _ _
     (by decide) (by rfl)⟩

set_option maxHeartbeats 1000000 in
/-- C4: an issue_comment whose disambiguating event-kind equals the
pull-request-comment marker always renders a body that includes the issue
title and is typed PR, for every includeTitle flag and topic override (the
handler result does not depend on the override at all); a non-PR
issue_comment body includes the title exactly when the includeTitle flag is
true. -/
theorem C4_pr_comment_unconditional_title :
    (∀ helper t b, helper.event_type = "pull_request_comment" →
        handle_issue_comment_event helper = .ok (t, some b) →
        ∃ m, b = Body.pullRequest m ∧ m.title ≠ none ∧ m.type = "PR") ∧
    (∀ helper x, helper.event_type = "pull_request_comment" →
        handle_issue_comment_event { helper with user_specified_topic := x } =
          handle_issue_comment_event helper) ∧
    (∀ p it m, format_issue_comment_event p it = .ok (Body.issueEvent m) →
        (m.title ≠ none ↔ it = true)) := by
  refine ⟨?_, ?_, ?_⟩
  · intro helper t b hev h
    unfold handle_issue_comment_event at h
    split at h
    · simp only [exceptBind_eq_ok, exceptPure_eq_ok, Except.ok.injEq,
        get_pull_request_event_message, exists_eq_left, exists_eq_left'] at h
      repeat' (first
        | (obtain ⟨_, _, h⟩ := h)
        | (split at h)
        | (simp only [exceptBind_ok, exceptBind_eq_ok, exceptPure_eq_ok, Except.ok.injEq,
            exists_eq_left, exists_eq_left'] at h))
      all_goals exact ⟨_, rfl, by simp, rfl⟩
    · simp_all
  · intro helper x hev
    simp only [handle_issue_comment_event]
    simp [hev]
  · intro p it m h
    unfold format_issue_comment_event at h
    simp only [exceptBind_eq_ok, exceptPure_eq_ok, Except.ok.injEq,
      get_issue_event_message, exists_eq_left, exists_eq_left'] at h
    repeat' (first
      | (obtain ⟨_, _, h⟩ := h)
      | (split at h)
      | (simp only [exceptBind_ok, exceptBind_eq_ok, exceptPure_eq_ok, Except.ok.injEq,
          exists_eq_left, exists_eq_left'] at h))
    all_goals simp_all

/-- Witness for C4: a pull-request-shaped issue comment renders a PR-typed
body with the title present even with no topic override; changing the
override does not change the handler result; and the non-PR formatter with
includeTitle false omits the title. -/
theorem C4_pr_comment_unconditional_title_witness :
    (∃ m, Body.pullRequest
        ⟨"carol", "[commented](CU) on", "IU", 7, none, none, some "CB", "PR",
          some "IT", none⟩ = Body.pullRequest m ∧ m.title ≠ none ∧ m.type = "PR") ∧
    handle_issue_comment_event
        ⟨issueCommentPayload, none, some "topic", "repo", "pull_request_comment"⟩ =
      handle_issue_comment_event
        ⟨issueCommentPayload, none, none, "repo", "pull_request_comment"⟩ ∧
    (((none : Option String) ≠ none) ↔ false = true) :=
  have h := C4_pr_comment_unconditional_title
  ⟨h.1 ⟨issueCommentPayload, none, none, "repo", "pull_request_comment"⟩
      (some "repo / PR #7 IT")
      (Body.pullRequest
        ⟨"carol", "[commented](CU) on", "IU", 7, none, none, some "CB", "PR",
          some "IT", none⟩) rfl (by rfl),
   h.2.1 ⟨issueCommentPayload, none, none, "repo", "pull_request_comment"⟩
     (some "topic") rfl,
   h.2.2 issueCommentPayload false
     ⟨"carol", "[commented](CU) on", "R/issues/7", 7, "CB", none, none, none⟩
     (by rfl)⟩

/-- C9: when the dispatch context repo was resolved from the payload
repository name — as the transport entry point always does — the
issue_comment handler, which reads the repository name from the payload
again for its topic, produces exactly the result of the variant that uses
the pre-resolved context repo; and the transport resolves the context repo
from that same payload field. -/
theorem C9_issue_comment_repo_refinement (helper : Helper) (rj nj : JsonValue)
    (h1 : getKey helper.payload "repository" = .ok rj)
    (h2 : getKey rj "name" = .ok nj)
    (h3 : tameString nj = .ok helper.repo) :
    handle_issue_comment_event helper = handle_issue_comment_event_ctx_repo helper ∧
    (∀ event eth br ut, gogs_webhook_main event eth helper.payload br ut =
        dispatch event
          ⟨helper.payload, br, ut, helper.repo, eth.getD "default_event_type"⟩) := by
  constructor
  · unfold handle_issue_comment_event handle_issue_comment_event_ctx_repo
    simp only [h1, exceptBind_ok, h2, h3]
  · intro event eth br ut
    unfold gogs_webhook_main
    simp only [h1, exceptBind_ok, h2, h3]

/-- Witness for C9 on a concrete issue-comment payload whose repository name
equals the pre-resolved context repo. -/
theorem C9_issue_comment_repo_refinement_witness :
    handle_issue_comment_event
        ⟨issueCommentPayload, none, none, "repo", "default_event_type"⟩ =
      handle_issue_comment_event_ctx_repo
        ⟨issueCommentPayload, none, none, "repo", "default_event_type"⟩ ∧
    gogs_webhook_main "issue_comment" none issueCommentPayload none none =
      dispatch "issue_comment"
        ⟨issueCommentPayload, none, none, "repo", "default_event_type"⟩ :=
  have h := C9_issue_comment_repo_refinement
    ⟨issueCommentPayload, none, none, "repo", "default_event_type"⟩
    (.obj [("html_url", .str "R"), ("name", .str "repo")]) (.str "repo")
    (by rfl) (by rfl) (by rfl)
  ⟨h.1, h.2 "issue_comment" none none none⟩
